import Mathlib

/-!
Shallow embedding of the Cosmos dependency-injection container
(lib/Container.ts): the binding registry, instance cache, alias resolver,
contextual binding store and the resolver algorithm `make`, together with
theorems checking the specified properties against this embedding.

Modelling conventions:
- JS identifiers (`Abstract = string | symbol | Constructor`) become `Ident`.
- JS function values (classes, plain functions, arrow functions) become
  `FnVal`, carrying an identity (`fid`), their syntactic kind (the
  `isClass` regex heuristic distinguishes `class` declarations), the ids of
  their strict prototype-chain ancestors (`superChain`, used by
  `isPrototypeOf`), and their `design:paramtypes` metadata (`paramtypes`,
  defaulting to the empty list when no metadata was emitted).
- JS `Map` becomes an insertion-ordered association list with
  update-in-place-or-append `set` semantics.
- Object creation (`new`) allocates a fresh object identity from a counter
  threaded through the state; `new` applied to an arrow function or to a
  string/symbol raises a TypeError, as in JS.
- The recursive `make`/`build`/`resolveDependencies` nest is modelled with
  a fuel parameter (the TS recursion has no internal termination guarantee);
  `getAlias` uses a default fuel of (number of alias edges + 1), which
  suffices exactly when the alias chain from the queried identifier is
  acyclic, and returns `none` when the TS recursion would not terminate.
-/

namespace Cosmos

/-- The identifier space: a name, a unique token, or a constructible-type
reference (identified by the function id it denotes). -/
inductive Ident where
  | str : String → Ident
  | sym : Nat → Ident
  | ctor : Nat → Ident
deriving DecidableEq, Repr

/-- Syntactic kind of a JS function value: a `class` declaration, a plain
`function`, or an arrow function. -/
inductive FnKind where
  | cls : FnKind
  | plain : FnKind
  | arrow : FnKind
deriving DecidableEq, Repr

/-- A JS function value: identity, kind, strict prototype-chain ancestors,
and `design:paramtypes` metadata. -/
structure FnVal where
  fid : Nat
  kind : FnKind
  superChain : List Nat
  paramtypes : List Ident
deriving DecidableEq, Repr

/-- A runtime value: an allocated object with its identity, the id of the
function that constructed it, and the argument list it was constructed
with. -/
inductive Value where
  | obj : Nat → Nat → List Value → Value

/-- A registry entry: `{ concrete, shared }`. -/
structure Binding where
  concrete : FnVal
  shared : Bool
deriving DecidableEq, Repr

/-- The container state: the four maps plus the object-allocation counter. -/
structure Container where
  bindings : List (Ident × Binding)
  instances : List (Ident × Value)
  aliases : List (Ident × Ident)
  contextual : List (Ident × List (Ident × Ident))
  counter : Nat

/-- The errors the container operations raise. -/
inductive CError where
  | duplicateBinding : Ident → CError
  | duplicateAlias : Ident → CError
  | unboundAliasTarget : Ident → CError
  | circular : List Ident → CError
  | unresolvedDependency : Ident → CError
  | typeError : CError
  | aliasOverflow : CError
  | outOfFuel : CError
deriving DecidableEq, Repr

/-- First-match lookup in an association list (JS `Map.get`). -/
def alGet {α : Type} : List (Ident × α) → Ident → Option α
  | [], _ => none
  | (k, v) :: t, x => if k = x then some v else alGet t x

/-- JS `Map.has`. -/
def alHas {α : Type} (l : List (Ident × α)) (x : Ident) : Bool :=
  (alGet l x).isSome

/-- JS `Map.set`: update in place if the key is present, else append. -/
def alSet {α : Type} : List (Ident × α) → Ident → α → List (Ident × α)
  | [], k, v => [(k, v)]
  | (k', v') :: t, k, v =>
    if k' = k then (k, v) :: t else (k', v') :: alSet t k v

/-- The empty, just-constructed container. -/
def emptyC : Container := ⟨[], [], [], [], 0⟩

/-- The alias-chain chase of `Container.getAlias`, with explicit fuel:
one lookup per step, `none` when fuel runs out. -/
def getAliasGo (al : List (Ident × Ident)) : Nat → Ident → Option Ident
  | 0, _ => none
  | n + 1, x =>
    match alGet al x with
    | some y => getAliasGo al n y
    | none => some x

/-- Container.getAlias: follows the alias chain recursively; fuel
(edge count + 1) suffices whenever the chain from `x` is acyclic, so
`none` models the diverging TS recursion on an alias cycle. -/
def getAliasF (c : Container) (x : Ident) : Option Ident :=
  getAliasGo c.aliases (c.aliases.length + 1) x

/-- Whether an identifier is a symbol (`typeof key === 'symbol'`). -/
def isSymId : Ident → Bool
  | .sym _ => true
  | _ => false

/-- Container.has: a binding, cached instance or alias under the exact
identifier, or — when the identifier is a constructible-type reference —
a scan of all bindings for a non-symbol key whose concrete is detected as
a class (`isClass`) and whose strict prototype chain contains the queried
type (`abstract.prototype.isPrototypeOf(concrete.prototype)`); stored
concretes are always functions, so the `typeof` test on them holds. -/
def hasId (c : Container) (abstract : Ident) : Bool :=
  if alHas c.bindings abstract || alHas c.instances abstract
      || alHas c.aliases abstract then
    true
  else
    match abstract with
    | .ctor n =>
      c.bindings.any (fun kb =>
        !(isSymId kb.1) && (kb.2.concrete.kind == FnKind.cls)
          && (kb.2.concrete.superChain.contains n))
    | _ => false

/-- Container.isShared: resolves the alias chain first (so an alias cycle
diverges, modelled as `none`), then checks the instance cache and the
binding's `shared` flag. -/
def isSharedF (c : Container) (x : Ident) : Option Bool :=
  match getAliasF c x with
  | none => none
  | some a =>
    if alHas c.instances a then some true
    else
      match alGet c.bindings a with
      | some b => some b.shared
      | none => some false

/-- Container.bind: rejects an already-bound identifier before mutating,
so on failure the returned state is the input state unchanged. -/
def bindOp (c : Container) (abstract : Ident) (concrete : FnVal)
    (shared : Bool) : Except CError Unit × Container :=
  if alHas c.bindings abstract then
    (.error (.duplicateBinding abstract), c)
  else
    (.ok (), { c with bindings := alSet c.bindings abstract ⟨concrete, shared⟩ })

/-- Container.singleton: `bind` with `shared = true`. -/
def singletonOp (c : Container) (abstract : Ident) (concrete : FnVal) :
    Except CError Unit × Container :=
  bindOp c abstract concrete true

/-- Container.instance: registers a pre-built value in the instance cache. -/
def instanceOp (c : Container) (abstract : Ident) (v : Value) : Container :=
  { c with instances := alSet c.instances abstract v }

/-- Container.alias: rejects a duplicate alias name, requires the target to
be recognized by `has`, then records `alias → abstract`. -/
def aliasOp (c : Container) (abstract aliasName : Ident) :
    Except CError Unit × Container :=
  if alHas c.aliases aliasName then
    (.error (.duplicateAlias aliasName), c)
  else if !(hasId c abstract) then
    (.error (.unboundAliasTarget abstract), c)
  else
    (.ok (), { c with aliases := alSet c.aliases aliasName abstract })

/-- Container.addContextualBinding: creates the inner map on demand, then
sets `(abstract → implementation)` in it (last write wins). -/
def addContextualBinding (c : Container) (concrete abstract implementation : Ident) :
    Container :=
  let inner := (alGet c.contextual concrete).getD []
  { c with contextual := alSet c.contextual concrete (alSet inner abstract implementation) }

/-- Container.getContextualConcrete: the override for `(concrete, abstract)`
if present, else `none` (the "no override" sentinel, `null` in TS). -/
def getContextualConcrete (c : Container) (abstract concrete : Ident) :
    Option Ident :=
  match alGet c.contextual concrete with
  | some m => alGet m abstract
  | none => none

/-- Container.flush: clears bindings, instances, aliases and contextual. -/
def flush (c : Container) : Container :=
  { c with bindings := [], instances := [], aliases := [], contextual := [] }

/-- The concrete returned by Container.getConcrete: either a function value
or a bare string/symbol identifier (an unbound non-constructor abstract). -/
inductive ConcreteV where
  | fn : FnVal → ConcreteV
  | id : Ident → ConcreteV

/-- Container.getConcrete: the bound concrete if any, else the identifier
itself (a constructible-type reference denotes its function value). -/
def getConcrete (env : Nat → FnVal) (c : Container) (abstract : Ident) :
    ConcreteV :=
  match alGet c.bindings abstract with
  | some b => .fn b.concrete
  | none =>
    match abstract with
    | .ctor n => .fn (env n)
    | i => .id i

/-- The `typeof concrete === 'function'` test on a retrieved concrete. -/
def concreteIsFunction : ConcreteV → Bool
  | .fn _ => true
  | .id _ => false

/-- JS reference equality `concrete === abstract` between a retrieved
concrete and an identifier. -/
def concreteEq : ConcreteV → Ident → Bool
  | .fn f, .ctor n => f.fid == n
  | .fn _, _ => false
  | .id i, a => i == a

/-- Container.isBuildable: `concrete === abstract || typeof concrete ===
'function'` — true for every function value. -/
def isBuildable (cv : ConcreteV) (abstract : Ident) : Bool :=
  concreteEq cv abstract || concreteIsFunction cv

/-- The local `isConstructor` check in `make`: `fn.prototype !== undefined`,
true for classes and plain functions, false for arrow functions. -/
def isConstructorFn (f : FnVal) : Bool :=
  !(f.kind == FnKind.arrow)

/-- JS `new f(...args)`: a TypeError on an arrow function, otherwise a
freshly allocated object recording the constructing function and the
argument list. -/
def newObj (c : Container) (f : FnVal) (args : List Value) :
    Except CError Value × Container :=
  match f.kind with
  | .arrow => (.error .typeError, c)
  | _ => (.ok (.obj c.counter f.fid args), { c with counter := c.counter + 1 })

/-- A plain factory call `f(...args)`: produces a fresh value (a factory
such as `() => new MyService()` allocates on each call). Only reachable
from the direct-invocation branch of `make`, which is dead code. -/
def callFn (c : Container) (f : FnVal) (args : List Value) :
    Except CError Value × Container :=
  (.ok (.obj c.counter f.fid args), { c with counter := c.counter + 1 })

/-- Container.resolveDependencies: for each metadata parameter type, fail
with the unresolved-dependency error unless `has` recognizes it, then
resolve it through the supplied one-step `make` (which carries the
extended resolution stack), left to right, threading the state. -/
def depsLoop (mk1 : Container → Ident → Except CError Value × Container) :
    Container → List Ident → Except CError (List Value) × Container
  | c, [] => (.ok [], c)
  | c, p :: rest =>
    if hasId c p then
      match mk1 c p with
      | (.error e, c') => (.error e, c')
      | (.ok v, c') =>
        match depsLoop mk1 c' rest with
        | (.ok vs, c'') => (.ok (v :: vs), c'')
        | (.error e, c'') => (.error e, c'')
    else
      (.error (.unresolvedDependency p), c)

/-- Container.build, applied to whatever `make` casts into it: `new` with
the explicit parameters when any are given, else `new` with the resolved
dependency list; applying it to a bare string/symbol is a TypeError (both
`new` and `Reflect.getMetadata` reject a non-object target). -/
def buildWith (mk1 : Container → Ident → Except CError Value × Container)
    (c : Container) (cv : ConcreteV) (params : List Value) :
    Except CError Value × Container :=
  match cv with
  | .id _ => (.error .typeError, c)
  | .fn f =>
    if params.length > 0 then
      newObj c f params
    else
      match depsLoop mk1 c f.paramtypes with
      | (.ok deps, c') => newObj c' f deps
      | (.error e, c') => (.error e, c')

/-- The direct factory/constructor invocation branch of `make` (source
lines 321-336): `new` for values with a prototype, a plain call otherwise,
then the shared-store step. Its guard is provably never satisfied. -/
def invokeDirect (c : Container) (cv : ConcreteV) (params : List Value)
    (needsStore : Bool) (abstract : Ident) : Except CError Value × Container :=
  match cv with
  | .id _ => (.error .typeError, c)
  | .fn f =>
    match (if isConstructorFn f then newObj c f params else callFn c f params) with
    | (.ok inst, c') =>
      (.ok inst, if needsStore then instanceOp c' abstract inst else c')
    | (.error e, c') => (.error e, c')

/-- One unfolding of Container.make, parameterized by the resolver used for
nested calls: resolve the alias chain, detect a cycle against the
resolution stack, short-circuit on a cached instance, fetch the concrete,
compute `needsStore` via `isShared`, then either the (unreachable) direct
invocation branch or `build` with the stack extended by the canonical
identifier, storing the result when shared. The source's step for a
concrete that is neither a function nor a string nor a symbol cannot arise
here: `getConcrete` only ever returns a function or a string/symbol. -/
def makeStep (env : Nat → FnVal)
    (mkPrev : Container → Ident → List Value → List Ident →
      Except CError Value × Container)
    (c : Container) (abstract0 : Ident) (params : List Value)
    (resolving : List Ident) : Except CError Value × Container :=
  match getAliasF c abstract0 with
  | none => (.error .aliasOverflow, c)
  | some abstract =>
    if abstract ∈ resolving then
      (.error (.circular (resolving ++ [abstract])), c)
    else
      match alGet c.instances abstract with
      | some v => (.ok v, c)
      | none =>
        match isSharedF c abstract with
        | none => (.error .aliasOverflow, c)
        | some needsStore =>
          if concreteIsFunction (getConcrete env c abstract)
              && !(isBuildable (getConcrete env c abstract) abstract) then
            invokeDirect c (getConcrete env c abstract) params needsStore abstract
          else
            match buildWith (fun c2 p => mkPrev c2 p [] (resolving ++ [abstract]))
                c (getConcrete env c abstract) params with
            | (.ok inst, c') =>
              (.ok inst, if needsStore then instanceOp c' abstract inst else c')
            | (.error e, c') => (.error e, c')

/-- Container.make with fuel bounding the recursion depth. -/
def makeF (env : Nat → FnVal) : Nat → Container → Ident → List Value →
    List Ident → Except CError Value × Container
  | 0, c, _, _, _ => (.error .outOfFuel, c)
  | fuel + 1, c, a, params, resolving =>
    makeStep env (makeF env fuel) c a params resolving

/-- The frame a `make` call is expected to leave: bindings, aliases and
contextual map exactly unchanged, and every previously cached instance
still cached unchanged. -/
def regFrame (c c' : Container) : Prop :=
  c'.bindings = c.bindings ∧ c'.aliases = c.aliases ∧
    c'.contextual = c.contextual ∧
    ∀ k v, alGet c.instances k = some v → alGet c'.instances k = some v

/-- A default class environment for scenarios. -/
def env0 : Nat → FnVal := fun _ => ⟨0, .cls, [], []⟩

/-- A zero-dependency class standing for ConsoleLogger. -/
def consoleLoggerC : FnVal := ⟨1, .cls, [], []⟩

/-- A zero-dependency class standing for FileLogger. -/
def fileLoggerC : FnVal := ⟨2, .cls, [], []⟩

/-- A class standing for PaymentService, whose constructor metadata
declares a dependency on the identifier "logger". -/
def paymentServiceC : FnVal := ⟨3, .cls, [], [.str "logger"]⟩

/-- The contextual-binding scenario: default "logger" binding, a
"file.logger" binding, a "payment.service" binding whose constructor needs
"logger", and the override when("payment.service").needs("logger").give("file.logger"). -/
def c1state : Container :=
  addContextualBinding
    (bindOp (bindOp (bindOp emptyC (.str "logger") consoleLoggerC false).2
      (.str "file.logger") fileLoggerC false).2
      (.str "payment.service") paymentServiceC false).2
    (.str "payment.service") (.str "logger") (.str "file.logger")

/-- An arrow-function factory, as in the documented usage
bind("svc", () => new MyService()). -/
def arrowFactoryC : FnVal := ⟨4, .arrow, [], []⟩

/-- A container with an identifier bound to an arrow-function factory. -/
def c2state : Container := (bindOp emptyC (.str "svc") arrowFactoryC false).2

/-- A class whose constructor metadata needs the identifier "b". -/
def cycleA : FnVal := ⟨5, .cls, [], [.str "b"]⟩

/-- A class whose constructor metadata needs the identifier "a". -/
def cycleB : FnVal := ⟨6, .cls, [], [.str "a"]⟩

/-- A zero-dependency class used as a shared dependency. -/
def depC : FnVal := ⟨7, .cls, [], []⟩

/-- A class needing the shared "dep" and then an unbound "missing". -/
def topC : FnVal := ⟨8, .cls, [], [.str "dep", .str "missing"]⟩

/-- singleton("dep", depC) then bind("top", topC): making "top" resolves
and caches "dep", then fails on "missing". -/
def c4state : Container :=
  (bindOp (singletonOp emptyC (.str "dep") depC).2 (.str "top") topC false).2

/-- A zero-dependency class for witness scenarios. -/
def noDepC : FnVal := ⟨9, .cls, [], []⟩

/-- A class bound under "a" so that aliases on "a" are accepted. -/
def c5classA : FnVal := ⟨11, .cls, [], []⟩

/-- After bind("a", c5classA). -/
def c5s1 : Container := (bindOp emptyC (.str "a") c5classA false).2

/-- After alias("a", "b"): the alias edge b → a. -/
def c5s2 : Container := (aliasOp c5s1 (.str "a") (.str "b")).2

/-- After alias("b", "a"): the alias edge a → b closes the cycle
a → b → a, a state reached through public operations only. -/
def c5state : Container := (aliasOp c5s2 (.str "b") (.str "a")).2

/-- A class bound under the plain key "k" and also queried by its own
constructor reference. -/
def selfC : FnVal := ⟨12, .cls, [], []⟩

/-- A container whose only binding has concrete `selfC` under key "k". -/
def c8state : Container := (bindOp emptyC (.str "k") selfC false).2

/-- The registry reached from empty by bind(a, Ca) then bind(b, Cb) with
distinct identifiers: exactly the two bindings, nothing else. -/
def twoBindC (a b : Ident) (Ca Cb : FnVal) : Container :=
  ⟨[(a, ⟨Ca, false⟩), (b, ⟨Cb, false⟩)], [], [], [], 0⟩

/-- The registry reached from empty by a single bind of a under C with the
given sharing flag. -/
def oneBindC (a : Ident) (C : FnVal) (sh : Bool) : Container :=
  ⟨[(a, ⟨C, sh⟩)], [], [], [], 0⟩

/-- The state after a shared binding of a zero-dependency class has been
resolved once: its instance is cached and one object was allocated. -/
def oneBindCachedC (a : Ident) (C : FnVal) : Container :=
  ⟨[(a, ⟨C, true⟩)], [(a, .obj 0 C.fid [])], [], [], 1⟩

/-- The state after a non-shared binding of a zero-dependency class has
been resolved once: nothing is cached, one object was allocated. -/
def oneBindBuiltC (a : Ident) (C : FnVal) : Container :=
  ⟨[(a, ⟨C, false⟩)], [], [], [], 1⟩

/-- Updating a key makes it retrievable. -/
theorem alGet_alSet_self {α : Type} (l : List (Ident × α)) (k : Ident) (v : α) :
    alGet (alSet l k v) k = some v := by
  induction l with
  | nil => simp [alSet, alGet]
  | cons kv t ih =>
    obtain ⟨a, b⟩ := kv
    by_cases hak : a = k
    · simp [alSet, hak, alGet]
    · simp [alSet, hak, alGet, ih]

/-- Updating one key leaves every other key unchanged. -/
theorem alGet_alSet_ne {α : Type} (l : List (Ident × α)) (k k' : Ident) (v : α)
    (h : k ≠ k') : alGet (alSet l k v) k' = alGet l k' := by
  induction l with
  | nil => simp [alSet, alGet, h]
  | cons kv t ih =>
    obtain ⟨a, b⟩ := kv
    by_cases hak : a = k
    · subst hak
      simp [alSet, alGet, h]
    · simp [alSet, hak, alGet, ih]

/-- The guard of the direct factory-invocation branch of `make` is false
for every concrete: `isBuildable` already returns true for every function
value, so `typeof concrete === 'function' && !isBuildable(...)` cannot
hold, and the branch that would call a factory with the explicit argument
list is dead code. -/
theorem direct_guard_false (cv : ConcreteV) (a : Ident) :
    (concreteIsFunction cv && !(isBuildable cv a)) = false := by
  cases cv <;> simp [concreteIsFunction, isBuildable, concreteEq]

/-- A successful alias chase ends at an identifier with no outgoing edge. -/
theorem getAliasGo_terminal (al : List (Ident × Ident)) :
    ∀ n x t, getAliasGo al n x = some t → alGet al t = none := by
  intro n
  induction n with
  | zero => intro x t h; simp [getAliasGo] at h
  | succ n ih =>
    intro x t h
    unfold getAliasGo at h
    cases hx : alGet al x with
    | some y => rw [hx] at h; exact ih y t h
    | none => rw [hx] at h; cases h; exact hx

/-- An edge-free identifier is its own alias resolution. -/
theorem getAliasF_of_terminal (c : Container) (t : Ident)
    (h : alGet c.aliases t = none) : getAliasF c t = some t := by
  unfold getAliasF
  simp [getAliasGo, h]

/-- On the reachable alias cycle a → b → a, the alias chase returns no
result at any recursion depth, for either end of the cycle. -/
theorem c5_go_cycle : ∀ n,
    getAliasGo c5state.aliases n (.str "a") = none ∧
    getAliasGo c5state.aliases n (.str "b") = none := by
  intro n
  induction n with
  | zero => exact ⟨rfl, rfl⟩
  | succ n ih =>
    refine ⟨?_, ?_⟩
    · have h : alGet c5state.aliases (.str "a") = some (.str "b") := rfl
      simpa [getAliasGo, h] using ih.2
    · have h : alGet c5state.aliases (.str "b") = some (.str "a") := rfl
      simpa [getAliasGo, h] using ih.1

/-- Allocation leaves all four registry maps of the state untouched. -/
theorem newObj_maps (c : Container) (f : FnVal) (args : List Value) :
    (newObj c f args).2.bindings = c.bindings ∧
    (newObj c f args).2.instances = c.instances ∧
    (newObj c f args).2.aliases = c.aliases ∧
    (newObj c f args).2.contextual = c.contextual := by
  unfold newObj
  cases f.kind <;> simp

/-- If each nested resolution keeps `x` out of the instance cache, so does
the whole dependency loop. -/
theorem depsLoop_inflight (mk1 : Container → Ident → Except CError Value × Container)
    (x : Ident)
    (hmk : ∀ c p, alGet c.instances x = none →
      alGet (mk1 c p).2.instances x = none) :
    ∀ ps c, alGet c.instances x = none →
      alGet (depsLoop mk1 c ps).2.instances x = none := by
  intro ps
  induction ps with
  | nil => intro c h; simpa [depsLoop] using h
  | cons p rest ih =>
    intro c h
    unfold depsLoop
    by_cases hp : hasId c p = true
    · rw [if_pos hp]
      rcases h1 : mk1 c p with ⟨r, c'⟩
      have h1' : alGet c'.instances x = none := by
        have := hmk c p h
        rw [h1] at this
        exact this
      cases r with
      | error e => simpa using h1'
      | ok v =>
        dsimp only
        rcases h2 : depsLoop mk1 c' rest with ⟨r2, c''⟩
        have h2' : alGet c''.instances x = none := by
          have := ih c' h1'
          rw [h2] at this
          exact this
        cases r2 <;> simpa using h2'
    · rw [if_neg hp]
      exact h

/-- If each nested resolution keeps `x` out of the instance cache, so does
`build`. -/
theorem buildWith_inflight
    (mk1 : Container → Ident → Except CError Value × Container) (x : Ident)
    (hmk : ∀ c p, alGet c.instances x = none →
      alGet (mk1 c p).2.instances x = none)
    (c : Container) (cv : ConcreteV) (params : List Value)
    (h : alGet c.instances x = none) :
    alGet (buildWith mk1 c cv params).2.instances x = none := by
  unfold buildWith
  cases cv with
  | id i => simpa using h
  | fn f =>
    dsimp only
    by_cases hl : params.length > 0
    · rw [if_pos hl, (newObj_maps c f params).2.1]
      exact h
    · rw [if_neg hl]
      rcases hd : depsLoop mk1 c f.paramtypes with ⟨r, c'⟩
      have hd' : alGet c'.instances x = none := by
        have := depsLoop_inflight mk1 x hmk f.paramtypes c h
        rw [hd] at this
        exact this
      cases r with
      | ok deps =>
        dsimp only
        rw [(newObj_maps c' f deps).2.1]
        exact hd'
      | error e => simpa using hd'

/-- An identifier on the resolution stack that is not cached when a `make`
call starts is still not cached when it returns: the cycle check prevents
any nested resolution from completing (and hence caching) it. -/
theorem makeF_inflight (env : Nat → FnVal) :
    ∀ fuel c a params resolving x, x ∈ resolving →
      alGet c.instances x = none →
      alGet (makeF env fuel c a params resolving).2.instances x = none := by
  intro fuel
  induction fuel with
  | zero => intro c a p r x hx h; simpa [makeF] using h
  | succ fuel ih =>
    intro c a p r x hx h
    show alGet (makeStep env (makeF env fuel) c a p r).2.instances x = none
    unfold makeStep
    cases hA : getAliasF c a with
    | none => simpa using h
    | some A =>
      dsimp only
      by_cases hmem : A ∈ r
      · rw [if_pos hmem]
        exact h
      · rw [if_neg hmem]
        cases hi : alGet c.instances A with
        | some v => simpa using h
        | none =>
          dsimp only
          cases hs : isSharedF c A with
          | none => simpa using h
          | some ns =>
            dsimp only
            simp only [direct_guard_false, Bool.false_eq_true, if_false]
            rcases hb : buildWith (fun c2 q => makeF env fuel c2 q [] (r ++ [A]))
                c (getConcrete env c A) p with ⟨br, c'⟩
            have hb' : alGet c'.instances x = none := by
              have := buildWith_inflight _ x
                (fun c2 q hq => ih c2 q [] (r ++ [A]) x (by simp [hx]) hq)
                c (getConcrete env c A) p h
              rw [hb] at this
              exact this
            cases br with
            | error e => simpa using hb'
            | ok inst =>
              have hne : A ≠ x := fun he => hmem (he ▸ hx)
              cases ns with
              | false => simpa using hb'
              | true =>
                simp only [if_true, instanceOp]
                simpa [alGet_alSet_ne _ _ _ _ hne] using hb'

/-- regFrame is reflexive. -/
theorem regFrame_refl (c : Container) : regFrame c c :=
  ⟨rfl, rfl, rfl, fun _ _ h => h⟩

/-- regFrame composes. -/
theorem regFrame_trans {c1 c2 c3 : Container} (h12 : regFrame c1 c2)
    (h23 : regFrame c2 c3) : regFrame c1 c3 :=
  ⟨h23.1.trans h12.1, h23.2.1.trans h12.2.1, h23.2.2.1.trans h12.2.2.1,
    fun k v h => h23.2.2.2 k v (h12.2.2.2 k v h)⟩

/-- Allocation respects the registry frame. -/
theorem newObj_regFrame (c : Container) (f : FnVal) (args : List Value) :
    regFrame c (newObj c f args).2 := by
  obtain ⟨h1, h2, h3, h4⟩ := newObj_maps c f args
  exact ⟨h1, h3, h4, fun k v h => by rw [h2]; exact h⟩

/-- The dependency loop respects the registry frame whenever the nested
resolver does. -/
theorem depsLoop_regFrame (mk1 : Container → Ident → Except CError Value × Container)
    (hmk : ∀ c p, regFrame c (mk1 c p).2) :
    ∀ ps c, regFrame c (depsLoop mk1 c ps).2 := by
  intro ps
  induction ps with
  | nil => intro c; exact regFrame_refl c
  | cons p rest ih =>
    intro c
    unfold depsLoop
    by_cases hp : hasId c p = true
    · rw [if_pos hp]
      rcases h1 : mk1 c p with ⟨r, c'⟩
      have f1 : regFrame c c' := by
        have := hmk c p
        rw [h1] at this
        exact this
      cases r with
      | error e => exact f1
      | ok v =>
        dsimp only
        rcases h2 : depsLoop mk1 c' rest with ⟨r2, c''⟩
        have f2 : regFrame c' c'' := by
          have := ih c'
          rw [h2] at this
          exact this
        cases r2 <;> exact regFrame_trans f1 f2
    · rw [if_neg hp]
      exact regFrame_refl c

/-- build respects the registry frame whenever the nested resolver does. -/
theorem buildWith_regFrame
    (mk1 : Container → Ident → Except CError Value × Container)
    (hmk : ∀ c p, regFrame c (mk1 c p).2)
    (c : Container) (cv : ConcreteV) (params : List Value) :
    regFrame c (buildWith mk1 c cv params).2 := by
  unfold buildWith
  cases cv with
  | id i => exact regFrame_refl c
  | fn f =>
    dsimp only
    by_cases hl : params.length > 0
    · rw [if_pos hl]
      exact newObj_regFrame c f params
    · rw [if_neg hl]
      rcases hd : depsLoop mk1 c f.paramtypes with ⟨r, c'⟩
      have fd : regFrame c c' := by
        have := depsLoop_regFrame mk1 hmk f.paramtypes c
        rw [hd] at this
        exact this
      cases r with
      | ok deps =>
        dsimp only
        exact regFrame_trans fd (newObj_regFrame c' f deps)
      | error e => exact fd

/-- C10: whether it returns an instance or fails, a `make` call leaves the
bindings, aliases and contextual maps exactly unchanged, and every
instance cached before the call is still cached unchanged afterwards: the
instance cache is only ever extended. -/
theorem make_frame (env : Nat → FnVal) :
    ∀ fuel c a params resolving,
      regFrame c (makeF env fuel c a params resolving).2 := by
  intro fuel
  induction fuel with
  | zero => intro c a p r; exact regFrame_refl c
  | succ fuel ih =>
    intro c a p r
    show regFrame c (makeStep env (makeF env fuel) c a p r).2
    unfold makeStep
    cases hA : getAliasF c a with
    | none => exact regFrame_refl c
    | some A =>
      dsimp only
      by_cases hmem : A ∈ r
      · rw [if_pos hmem]
        exact regFrame_refl c
      · rw [if_neg hmem]
        cases hi : alGet c.instances A with
        | some v => exact regFrame_refl c
        | none =>
          dsimp only
          cases hs : isSharedF c A with
          | none => exact regFrame_refl c
          | some ns =>
            dsimp only
            simp only [direct_guard_false, Bool.false_eq_true, if_false]
            rcases hb : buildWith (fun c2 q => makeF env fuel c2 q [] (r ++ [A]))
                c (getConcrete env c A) p with ⟨br, c'⟩
            have fb : regFrame c c' := by
              have := buildWith_regFrame _ (fun c2 q => ih c2 q [] (r ++ [A]))
                c (getConcrete env c A) p
              rw [hb] at this
              exact this
            cases br with
            | error e => exact fb
            | ok inst =>
              dsimp only
              cases ns with
              | false => simpa using fb
              | true =>
                rw [if_pos rfl]
                refine ⟨fb.1, fb.2.1, fb.2.2.1, ?_⟩
                intro k v hkv
                have hk' := fb.2.2.2 k v hkv
                have hne : A ≠ k := by
                  intro he
                  subst he
                  rw [hi] at hkv
                  exact Option.noConfusion hkv
                show alGet (alSet c'.instances A inst) k = some v
                rw [alGet_alSet_ne _ _ _ _ hne]
                exact hk'

/-- C4 amended: a failing `make` call never caches the identifier it was
asked for: if the canonical identifier was absent from the instance cache
before the call and the call fails, it is still absent afterwards (shared
dependencies that completed before the failure, however, remain cached —
see the counterexample). -/
theorem failed_make_never_caches_target (env : Nat → FnVal) (fuel : Nat)
    (c : Container) (a : Ident) (params : List Value) (resolving : List Ident)
    (A : Ident) (e : CError)
    (hA : getAliasF c a = some A)
    (h0 : alGet c.instances A = none)
    (herr : (makeF env fuel c a params resolving).1 = .error e) :
    alGet (makeF env fuel c a params resolving).2.instances A = none := by
  cases fuel with
  | zero => simpa [makeF] using h0
  | succ fuel =>
    revert herr
    show (makeStep env (makeF env fuel) c a params resolving).1 = .error e →
      alGet (makeStep env (makeF env fuel) c a params resolving).2.instances A = none
    unfold makeStep
    rw [hA]
    dsimp only
    by_cases hmem : A ∈ resolving
    · rw [if_pos hmem]
      intro _
      exact h0
    · rw [if_neg hmem]
      rw [h0]
      dsimp only
      cases hs : isSharedF c A with
      | none => intro _; exact h0
      | some ns =>
        dsimp only
        simp only [direct_guard_false, Bool.false_eq_true, if_false]
        rcases hb : buildWith (fun c2 q => makeF env fuel c2 q [] (resolving ++ [A]))
            c (getConcrete env c A) params with ⟨br, c'⟩
        have hb' : alGet c'.instances A = none := by
          have := buildWith_inflight _ A
            (fun c2 q hq =>
              makeF_inflight env fuel c2 q [] (resolving ++ [A]) A (by simp) hq)
            c (getConcrete env c A) params h0
          rw [hb] at this
          exact this
        cases br with
        | error e2 => intro _; exact hb'
        | ok inst =>
          dsimp only
          intro hcontra
          exact absurd hcontra (by simp)

/-- Boolean `contains` agrees with membership. -/
theorem contains_true_iff (l : List Nat) (n : Nat) : l.contains n = true ↔ n ∈ l := by
  constructor
  · exact fun h => List.elem_iff.mp h
  · exact fun h => List.elem_iff.mpr h

/-- C1: contextual overrides are registered but never consulted by the
resolver. With when("payment.service").needs("logger").give("file.logger")
recorded (the store reports the override), building "payment.service"
still constructs its "logger" dependency from the default ConsoleLogger
binding (class id 1), not from FileLogger (class id 2): the dependency
resolution path never calls getContextualConcrete. -/
theorem contextual_override_not_consulted :
    getContextualConcrete c1state (.str "logger") (.str "payment.service")
      = some (.str "file.logger") ∧
    (makeF env0 20 c1state (.str "payment.service") [] []).1
      = .ok (.obj 1 paymentServiceC.fid [.obj 0 consoleLoggerC.fid []]) ∧
    consoleLoggerC.fid ≠ fileLoggerC.fid :=
  ⟨rfl, rfl, by decide⟩

/-- C2: an identifier bound to a directly invokable factory is not
resolved by invoking the factory: the direct-invocation guard is false for
every concrete (isBuildable returns true for any function), so the
factory is routed into constructor-based structural construction, and
`new` applied to an arrow-function factory — the class's own documented
usage — raises a TypeError instead of producing an instance. -/
theorem factory_binding_not_invoked :
    alGet c2state.bindings (.str "svc") = some ⟨arrowFactoryC, false⟩ ∧
    arrowFactoryC.kind = FnKind.arrow ∧
    (makeF env0 20 c2state (.str "svc") [] []).1 = .error .typeError ∧
    (∀ cv a, (concreteIsFunction cv && !(isBuildable cv a)) = false) :=
  ⟨rfl, rfl, rfl, direct_guard_false⟩

/-- C4 counterexample: after singleton("dep", ...) and bind("top", a class
needing "dep" then the unbound "missing"), make("top") fails with the
unresolved-dependency error, yet the successfully resolved shared
dependency "dep" stays in the instance cache, which was empty before the
call: a failed make does not discard every dependency instance it
resolved. -/
theorem failed_make_keeps_shared_dep_cached :
    (makeF env0 20 c4state (.str "top") [] []).1
      = .error (.unresolvedDependency (.str "missing")) ∧
    alGet c4state.instances (.str "dep") = none ∧
    alGet (makeF env0 20 c4state (.str "top") [] []).2.instances (.str "dep")
      = some (.obj 0 depC.fid []) :=
  ⟨rfl, rfl, rfl⟩

/-- C5 counterexample: through public operations only — bind("a", C),
alias("a", "b"), alias("b", "a"), each succeeding — the registry reaches a
state whose alias graph is the cycle a → b → a, on which the recursive
getAlias chase never reaches an edge-free identifier at any recursion
depth: getAlias does not terminate on every reachable state. -/
theorem alias_cycle_reachable_getAlias_diverges :
    (bindOp emptyC (.str "a") c5classA false).1 = .ok () ∧
    (aliasOp c5s1 (.str "a") (.str "b")).1 = .ok () ∧
    (aliasOp c5s2 (.str "b") (.str "a")).1 = .ok () ∧
    getAliasF c5state (.str "a") = none ∧
    ∀ n, getAliasGo c5state.aliases n (.str "a") = none :=
  ⟨rfl, rfl, rfl, rfl, fun n => (c5_go_cycle n).1⟩

/-- C5 amended: whenever the alias chase does terminate (in particular on
every state whose alias graph is acyclic), it ends at an identifier with
no outgoing alias edge, and it is idempotent there:
getAlias(getAlias(x)) = getAlias(x). -/
theorem getAlias_terminal_idempotent (c : Container) (x t : Ident)
    (h : getAliasF c x = some t) :
    alGet c.aliases t = none ∧ getAliasF c t = some t := by
  have ht := getAliasGo_terminal c.aliases _ x t h
  exact ⟨ht, getAliasF_of_terminal c t ht⟩

/-- Witness for the amended C5 theorem on the concrete alias edge b → a. -/
theorem getAlias_terminal_idempotent_witness :
    getAliasF c5s2 (.str "b") = some (.str "a") ∧
    alGet c5s2.aliases (.str "a") = none ∧
    getAliasF c5s2 (.str "a") = some (.str "a") :=
  ⟨rfl, getAlias_terminal_idempotent c5s2 (.str "b") (.str "a") rfl⟩

/-- C6: binding an already-bound identifier fails with the duplicate
binding error and returns the registry unchanged: the binding for the
identifier is still the first concrete with its original sharing flag. -/
theorem duplicate_bind_rejected (c : Container) (a : Ident) (C D : FnVal)
    (s1 s2 : Bool) (h : alHas c.bindings a = false) :
    (bindOp c a C s1).1 = .ok () ∧
    bindOp (bindOp c a C s1).2 a D s2 =
      (.error (.duplicateBinding a), (bindOp c a C s1).2) ∧
    alGet (bindOp c a C s1).2.bindings a = some ⟨C, s1⟩ := by
  unfold bindOp
  rw [h]
  simp only [Bool.false_eq_true, if_false]
  refine ⟨trivial, ?_, ?_⟩
  · have hset : alHas (alSet c.bindings a ⟨C, s1⟩) a = true := by
      unfold alHas
      rw [alGet_alSet_self]
      rfl
    rw [hset]
    simp
  · exact alGet_alSet_self c.bindings a ⟨C, s1⟩

/-- Witness for C6 at a concrete unbound identifier. -/
theorem duplicate_bind_rejected_witness :
    alHas emptyC.bindings (.str "x") = false ∧
    ((bindOp emptyC (.str "x") noDepC false).1 = .ok () ∧
      bindOp (bindOp emptyC (.str "x") noDepC false).2 (.str "x") depC true =
        (.error (.duplicateBinding (.str "x")),
          (bindOp emptyC (.str "x") noDepC false).2) ∧
      alGet (bindOp emptyC (.str "x") noDepC false).2.bindings (.str "x")
        = some ⟨noDepC, false⟩) :=
  ⟨rfl, duplicate_bind_rejected emptyC (.str "x") noDepC depC false true rfl⟩

/-- C8 counterexample: with a class bound under the plain string key "k",
querying has with that very class's own constructible-type reference
returns false, although the registered binding's concrete type is
identical to the queried type: the prototype-chain test is strict, so an
identical type is not detected. -/
theorem has_misses_identical_concrete :
    alGet c8state.bindings (.str "k") = some ⟨selfC, false⟩ ∧
    isSymId (.str "k") = false ∧
    selfC.kind = FnKind.cls ∧
    hasId c8state (.ctor selfC.fid) = false :=
  ⟨rfl, rfl, rfl, rfl⟩

/-- C8 amended: has(id) is true exactly when id has a binding, a cached
instance or an alias, or id denotes a constructible type and some binding
registered under a non-symbol key has a concrete detected as a class whose
strict prototype-ancestor chain contains id's type — i.e. a proper
subtype; an identical concrete type, or one registered under a symbol key,
is not detected. -/
theorem has_characterization (c : Container) (i : Ident) :
    hasId c i = true ↔
      alHas c.bindings i = true ∨ alHas c.instances i = true ∨
      alHas c.aliases i = true ∨
      (∃ n, i = Ident.ctor n ∧ ∃ kb ∈ c.bindings,
        isSymId kb.1 = false ∧ kb.2.concrete.kind = FnKind.cls ∧
        n ∈ kb.2.concrete.superChain) := by
  unfold hasId
  by_cases hb : (alHas c.bindings i || alHas c.instances i
      || alHas c.aliases i) = true
  · rw [if_pos hb]
    simp only [Bool.or_eq_true] at hb
    simp only [true_iff]
    rcases hb with (h | h) | h
    · exact Or.inl h
    · exact Or.inr (Or.inl h)
    · exact Or.inr (Or.inr (Or.inl h))
  · rw [if_neg hb]
    simp only [Bool.or_eq_true, not_or, Bool.not_eq_true] at hb
    obtain ⟨⟨h1, h2⟩, h3⟩ := hb
    cases i with
    | str s =>
      simp [h1, h2, h3]
    | sym s =>
      simp [h1, h2, h3]
    | ctor n =>
      simp only [h1, h2, h3, Bool.false_eq_true, false_or]
      rw [List.any_eq_true]
      constructor
      · rintro ⟨kb, hmem, hpred⟩
        simp only [Bool.and_eq_true, Bool.not_eq_true', beq_iff_eq] at hpred
        exact ⟨n, rfl, kb, hmem,
          hpred.1.1, hpred.1.2, (contains_true_iff _ _).mp hpred.2⟩
      · rintro ⟨m, hm, kb, hmem, hsym, hcls, hchain⟩
        cases hm
        refine ⟨kb, hmem, ?_⟩
        simp only [Bool.and_eq_true, Bool.not_eq_true', beq_iff_eq]
        exact ⟨⟨hsym, hcls⟩, (contains_true_iff _ _).mpr hchain⟩

/-- C9: flush returns all four maps to the just-constructed empty state:
afterwards has is false for every identifier and getContextualConcrete
reports no override for every pair. -/
theorem flush_clears_all (c : Container) (i x ctx : Ident) :
    hasId (flush c) i = false ∧
    getContextualConcrete (flush c) x ctx = none ∧
    (flush c).bindings = [] ∧ (flush c).instances = [] ∧
    (flush c).aliases = [] ∧ (flush c).contextual = [] := by
  refine ⟨?_, rfl, rfl, rfl, rfl, rfl⟩
  cases i <;> rfl

/-- C3: from an empty registry, bind(a, a class needing b) and bind(b, a
class needing a) both succeed, and make(a) fails with the circular
dependency error whose reported chain is a, b, a — containing both
identifiers. -/
theorem binding_cycle_circular_error (env : Nat → FnVal) (fuel : Nat)
    (a b : Ident) (Ca Cb : FnVal) (hab : a ≠ b)
    (hpa : Ca.paramtypes = [b]) (hpb : Cb.paramtypes = [a]) :
    (bindOp emptyC a Ca false).1 = .ok () ∧
    (bindOp (bindOp emptyC a Ca false).2 b Cb false).1 = .ok () ∧
    (makeF env (fuel + 7)
        (bindOp (bindOp emptyC a Ca false).2 b Cb false).2 a [] []).1
      = .error (.circular [a, b, a]) ∧
    a ∈ [a, b, a] ∧ b ∈ [a, b, a] := by
  have hba : b ≠ a := Ne.symm hab
  have hc1 : bindOp emptyC a Ca false
      = (.ok (), (⟨[(a, ⟨Ca, false⟩)], [], [], [], 0⟩ : Container)) := by
    simp [bindOp, emptyC, alHas, alGet, alSet]
  have hc2 : bindOp (⟨[(a, ⟨Ca, false⟩)], [], [], [], 0⟩ : Container) b Cb false
      = (.ok (), twoBindC a b Ca Cb) := by
    simp [bindOp, alHas, alGet, alSet, hab, twoBindC]
  have gaA : getAliasF (twoBindC a b Ca Cb) a = some a := rfl
  have gaB : getAliasF (twoBindC a b Ca Cb) b = some b := rfl
  have hsharedA : isSharedF (twoBindC a b Ca Cb) a = some false := by
    simp [isSharedF, getAliasF, getAliasGo, twoBindC, alGet, alHas]
  have hsharedB : isSharedF (twoBindC a b Ca Cb) b = some false := by
    simp [isSharedF, getAliasF, getAliasGo, twoBindC, alGet, alHas, hab]
  have hconcA : getConcrete env (twoBindC a b Ca Cb) a = .fn Ca := by
    simp [getConcrete, twoBindC, alGet]
  have hconcB : getConcrete env (twoBindC a b Ca Cb) b = .fn Cb := by
    simp [getConcrete, twoBindC, alGet, hab]
  have hhasA : hasId (twoBindC a b Ca Cb) a = true := by
    simp [hasId, alHas, twoBindC, alGet]
  have hhasB : hasId (twoBindC a b Ca Cb) b = true := by
    simp [hasId, alHas, twoBindC, alGet, hab]
  have h5 : makeF env (fuel + 5) (twoBindC a b Ca Cb) a [] [a, b]
      = (.error (.circular [a, b, a]), twoBindC a b Ca Cb) := by
    show makeStep env (makeF env (fuel + 4)) (twoBindC a b Ca Cb) a [] [a, b] = _
    unfold makeStep
    rw [gaA]
    dsimp only
    rw [if_pos (show a ∈ [a, b] by simp)]
    simp only [List.cons_append, List.nil_append]
  have h6 : makeF env (fuel + 6) (twoBindC a b Ca Cb) b [] [a]
      = (.error (.circular [a, b, a]), twoBindC a b Ca Cb) := by
    show makeStep env (makeF env (fuel + 5)) (twoBindC a b Ca Cb) b [] [a] = _
    unfold makeStep
    rw [gaB]
    dsimp only
    rw [if_neg (show ¬ b ∈ [a] by simp [hba])]
    rw [show alGet (twoBindC a b Ca Cb).instances b = none from rfl]
    dsimp only
    rw [hsharedB]
    simp only [direct_guard_false, Bool.false_eq_true, if_false]
    rw [hconcB]
    unfold buildWith
    dsimp only
    rw [if_neg (show ¬ (([] : List Value).length > 0) by simp)]
    rw [hpb]
    unfold depsLoop
    rw [if_pos hhasA]
    simp only [List.cons_append, List.nil_append]
    rw [h5]
  have h7 : makeF env (fuel + 7) (twoBindC a b Ca Cb) a [] []
      = (.error (.circular [a, b, a]), twoBindC a b Ca Cb) := by
    show makeStep env (makeF env (fuel + 6)) (twoBindC a b Ca Cb) a [] [] = _
    unfold makeStep
    rw [gaA]
    dsimp only
    rw [if_neg (show ¬ a ∈ ([] : List Ident) by simp)]
    rw [show alGet (twoBindC a b Ca Cb).instances a = none from rfl]
    dsimp only
    rw [hsharedA]
    simp only [direct_guard_false, Bool.false_eq_true, if_false]
    rw [hconcA]
    unfold buildWith
    dsimp only
    rw [if_neg (show ¬ (([] : List Value).length > 0) by simp)]
    rw [hpa]
    unfold depsLoop
    rw [if_pos hhasB]
    simp only [List.nil_append]
    rw [h6]
  refine ⟨?_, ?_, ?_, by simp, by simp⟩
  · rw [hc1]
  · rw [hc1]
    dsimp only
    rw [hc2]
  · rw [hc1]
    dsimp only
    rw [hc2]
    dsimp only
    rw [h7]

/-- C7: for a zero-dependency constructible class C, after singleton(a, C)
two successive make(a) calls return the identical instance (the first
resolved object, cached and returned again), while after bind(a, C) with
the sharing flag at its default of false, two successive make(a) calls
return distinct instances (two separate allocations). -/
theorem singleton_shared_bind_distinct (env : Nat → FnVal) (fuel : Nat)
    (a : Ident) (C : FnVal) (hp : C.paramtypes = [])
    (hk : C.kind = FnKind.cls) :
    ((makeF env (fuel + 1) (singletonOp emptyC a C).2 a [] []).1
        = .ok (.obj 0 C.fid []) ∧
      (makeF env (fuel + 1)
          (makeF env (fuel + 1) (singletonOp emptyC a C).2 a [] []).2
          a [] []).1 = .ok (.obj 0 C.fid [])) ∧
    ((makeF env (fuel + 1) (bindOp emptyC a C false).2 a [] []).1
        = .ok (.obj 0 C.fid []) ∧
      (makeF env (fuel + 1)
          (makeF env (fuel + 1) (bindOp emptyC a C false).2 a [] []).2
          a [] []).1 = .ok (.obj 1 C.fid []) ∧
      (Value.obj 0 C.fid [] : Value) ≠ Value.obj 1 C.fid []) := by
  have hst : singletonOp emptyC a C = (.ok (), oneBindC a C true) := by
    simp [singletonOp, bindOp, emptyC, alHas, alGet, alSet, oneBindC]
  have hbd : bindOp emptyC a C false = (.ok (), oneBindC a C false) := by
    simp [bindOp, emptyC, alHas, alGet, alSet, oneBindC]
  have hS1 : makeF env (fuel + 1) (oneBindC a C true) a [] []
      = (.ok (.obj 0 C.fid []), oneBindCachedC a C) := by
    show makeStep env (makeF env fuel) (oneBindC a C true) a [] [] = _
    unfold makeStep
    rw [show getAliasF (oneBindC a C true) a = some a from rfl]
    dsimp only
    rw [if_neg (show ¬ a ∈ ([] : List Ident) by simp)]
    rw [show alGet (oneBindC a C true).instances a = none from rfl]
    dsimp only
    rw [show isSharedF (oneBindC a C true) a = some true by
      simp [isSharedF, getAliasF, getAliasGo, oneBindC, alGet, alHas]]
    simp only [direct_guard_false, Bool.false_eq_true, if_false]
    rw [show getConcrete env (oneBindC a C true) a = .fn C by
      simp [getConcrete, oneBindC, alGet]]
    unfold buildWith
    dsimp only
    rw [if_neg (show ¬ (([] : List Value).length > 0) by simp)]
    rw [hp]
    unfold depsLoop
    unfold newObj
    rw [hk]
    simp [oneBindC, oneBindCachedC, instanceOp, alSet]
  have hS2 : makeF env (fuel + 1) (oneBindCachedC a C) a [] []
      = (.ok (.obj 0 C.fid []), oneBindCachedC a C) := by
    show makeStep env (makeF env fuel) (oneBindCachedC a C) a [] [] = _
    unfold makeStep
    rw [show getAliasF (oneBindCachedC a C) a = some a from rfl]
    dsimp only
    rw [if_neg (show ¬ a ∈ ([] : List Ident) by simp)]
    rw [show alGet (oneBindCachedC a C).instances a
        = some (.obj 0 C.fid []) by simp [oneBindCachedC, alGet]]
  have hB1 : makeF env (fuel + 1) (oneBindC a C false) a [] []
      = (.ok (.obj 0 C.fid []), oneBindBuiltC a C) := by
    show makeStep env (makeF env fuel) (oneBindC a C false) a [] [] = _
    unfold makeStep
    rw [show getAliasF (oneBindC a C false) a = some a from rfl]
    dsimp only
    rw [if_neg (show ¬ a ∈ ([] : List Ident) by simp)]
    rw [show alGet (oneBindC a C false).instances a = none from rfl]
    dsimp only
    rw [show isSharedF (oneBindC a C false) a = some false by
      simp [isSharedF, getAliasF, getAliasGo, oneBindC, alGet, alHas]]
    simp only [direct_guard_false, Bool.false_eq_true, if_false]
    rw [show getConcrete env (oneBindC a C false) a = .fn C by
      simp [getConcrete, oneBindC, alGet]]
    unfold buildWith
    dsimp only
    rw [if_neg (show ¬ (([] : List Value).length > 0) by simp)]
    rw [hp]
    unfold depsLoop
    unfold newObj
    rw [hk]
    simp [oneBindC, oneBindBuiltC]
  have hB2 : makeF env (fuel + 1) (oneBindBuiltC a C) a [] []
      = (.ok (.obj 1 C.fid []),
          (⟨[(a, ⟨C, false⟩)], [], [], [], 2⟩ : Container)) := by
    show makeStep env (makeF env fuel) (oneBindBuiltC a C) a [] [] = _
    unfold makeStep
    rw [show getAliasF (oneBindBuiltC a C) a = some a from rfl]
    dsimp only
    rw [if_neg (show ¬ a ∈ ([] : List Ident) by simp)]
    rw [show alGet (oneBindBuiltC a C).instances a = none from rfl]
    dsimp only
    rw [show isSharedF (oneBindBuiltC a C) a = some false by
      simp [isSharedF, getAliasF, getAliasGo, oneBindBuiltC, alGet, alHas]]
    simp only [direct_guard_false, Bool.false_eq_true, if_false]
    rw [show getConcrete env (oneBindBuiltC a C) a = .fn C by
      simp [getConcrete, oneBindBuiltC, alGet]]
    unfold buildWith
    dsimp only
    rw [if_neg (show ¬ (([] : List Value).length > 0) by simp)]
    rw [hp]
    unfold depsLoop
    unfold newObj
    rw [hk]
    simp [oneBindBuiltC]
  refine ⟨⟨?_, ?_⟩, ?_, ?_, ?_⟩
  · rw [hst]
    dsimp only
    rw [hS1]
  · rw [hst]
    dsimp only
    rw [hS1]
    dsimp only
    rw [hS2]
  · rw [hbd]
    dsimp only
    rw [hB1]
  · rw [hbd]
    dsimp only
    rw [hB1]
    dsimp only
    rw [hB2]
  · intro h
    injection h with h1 h2 h3
    exact absurd h1 (by simp)

/-- Witness for C3 at concrete identifiers and classes. -/
theorem binding_cycle_circular_error_witness :
    (Ident.str "a" ≠ Ident.str "b" ∧ cycleA.paramtypes = [Ident.str "b"] ∧
      cycleB.paramtypes = [Ident.str "a"]) ∧
    ((bindOp emptyC (.str "a") cycleA false).1 = .ok () ∧
      (bindOp (bindOp emptyC (.str "a") cycleA false).2
          (.str "b") cycleB false).1 = .ok () ∧
      (makeF env0 7
          (bindOp (bindOp emptyC (.str "a") cycleA false).2
            (.str "b") cycleB false).2 (.str "a") [] []).1
        = .error (.circular [.str "a", .str "b", .str "a"]) ∧
      Ident.str "a" ∈ [Ident.str "a", Ident.str "b", Ident.str "a"] ∧
      Ident.str "b" ∈ [Ident.str "a", Ident.str "b", Ident.str "a"]) :=
  ⟨⟨by decide, rfl, rfl⟩,
    binding_cycle_circular_error env0 0 (.str "a") (.str "b") cycleA cycleB
      (by decide) rfl rfl⟩

/-- Witness for the amended C4 theorem on the concrete failing build. -/
theorem failed_make_never_caches_target_witness :
    (getAliasF c4state (.str "top") = some (.str "top") ∧
      alGet c4state.instances (.str "top") = none ∧
      (makeF env0 20 c4state (.str "top") [] []).1
        = .error (.unresolvedDependency (.str "missing"))) ∧
    alGet (makeF env0 20 c4state (.str "top") [] []).2.instances (.str "top")
      = none :=
  ⟨⟨rfl, rfl, rfl⟩,
    failed_make_never_caches_target env0 20 c4state (.str "top") [] []
      (.str "top") (.unresolvedDependency (.str "missing")) rfl rfl rfl⟩

/-- Witness for C7 at a concrete identifier and class. -/
theorem singleton_shared_bind_distinct_witness :
    (noDepC.paramtypes = [] ∧ noDepC.kind = FnKind.cls) ∧
    (((makeF env0 1 (singletonOp emptyC (.str "s") noDepC).2
          (.str "s") [] []).1 = .ok (.obj 0 noDepC.fid []) ∧
      (makeF env0 1
          (makeF env0 1 (singletonOp emptyC (.str "s") noDepC).2
            (.str "s") [] []).2 (.str "s") [] []).1
        = .ok (.obj 0 noDepC.fid [])) ∧
    ((makeF env0 1 (bindOp emptyC (.str "s") noDepC false).2
          (.str "s") [] []).1 = .ok (.obj 0 noDepC.fid []) ∧
      (makeF env0 1
          (makeF env0 1 (bindOp emptyC (.str "s") noDepC false).2
            (.str "s") [] []).2 (.str "s") [] []).1
        = .ok (.obj 1 noDepC.fid []) ∧
      (Value.obj 0 noDepC.fid [] : Value) ≠ Value.obj 1 noDepC.fid [])) :=
  ⟨⟨rfl, rfl⟩,
    singleton_shared_bind_distinct env0 0 (.str "s") noDepC rfl rfl⟩

/-- Witness for C10 on a concrete failing make call. -/
theorem make_frame_witness :
    regFrame c4state (makeF env0 20 c4state (.str "top") [] []).2 :=
  make_frame env0 20 c4state (.str "top") [] []

end Cosmos
